import Mathlib

set_option maxRecDepth 100000

/-!
Verification development for the node-omnibus MCP server (src/index.ts).

The TypeScript source is shallowly embedded: pure string-building functions
become Lean functions on `String`; the stateful parts (document store,
filesystem, subprocesses) become explicit state passing over small state
types plus an effect trace (`FsOp`).  Platform libraries (fs/promises,
child_process, JSON.parse, RegExp) are abstracted as oracles in `Fs`/`Env`;
everything written in index.ts itself is translated directly.
-/

/-- Error codes of the MCP SDK used by the server (index.ts imports
`ErrorCode` from the SDK; only these three are used). -/
inductive ErrorCode where
  | MethodNotFound
  | InvalidParams
  | InternalError
deriving DecidableEq, Repr

/-- The numeric JSON-RPC code of each `ErrorCode`, rendered as decimal text,
as it appears in `McpError.message` (`MCP error <code>: <message>`). -/
def errorCodeNum : ErrorCode → String
  | .MethodNotFound => "-32601"
  | .InvalidParams => "-32602"
  | .InternalError => "-32603"

/-- `McpError` as thrown throughout index.ts: a code plus a message. -/
structure McpError where
  code : ErrorCode
  message : String
deriving DecidableEq, Repr

/-- The SDK formats `McpError.message` (the JS `Error.message` field) as
`MCP error <code>: <message>`; handlers that catch and re-wrap an `McpError`
see this formatted text. -/
def mcpErrorText (e : McpError) : String :=
  "MCP error " ++ errorCodeNum e.code ++ ": " ++ e.message

/-- A value thrown inside a handler body: either a typed `McpError` or a
plain JS exception carrying a message (filesystem / subprocess / parse
errors). -/
inductive Thrown where
  | mcp (e : McpError)
  | js (msg : String)
deriving DecidableEq, Repr

/-- The `error.message` text a `catch` block observes for a `Thrown`. -/
def thrownText : Thrown → String
  | .mcp e => mcpErrorText e
  | .js m => m

/-- A JS runtime value, as far as the embedded handlers inspect one
(the `typescript` argument of `create_project` and the option
values of `update_tsconfig` are `unknown` in the source). -/
inductive JSVal where
  | bool (b : Bool)
  | num (n : Int)
  | str (s : String)
  | null
  | obj (fields : List (String × JSVal))

/-- Filesystem / subprocess effects performed by handlers, recorded as a
trace in declaration order. -/
inductive FsOp where
  | access (p : String)
  | stat (p : String)
  | mkdir (p : String)
  | writeFile (p : String) (content : String)
  | exec (cmd : String) (cwd : String)
deriving DecidableEq, Repr

/-- First-match association-list lookup (the JS-object / `Map.get` read
semantics used throughout the embedding). -/
def alookup {α : Type} : List (String × α) → String → Option α
  | [], _ => none
  | (k0, v0) :: rest, k => if k0 = k then some v0 else alookup rest k

/-- `this.projectDocs : Map<string, string>` — the in-memory document
store. -/
def DocStore : Type := List (String × String)

/-- `Map.prototype.set`: overwrite in place if the key exists (keeping its
position), otherwise append. -/
def DocStore.set : DocStore → String → String → DocStore
  | [], k, v => [(k, v)]
  | (k0, v0) :: rest, k, v =>
    if k0 = k then (k0, v) :: rest else (k0, v0) :: DocStore.set rest k v

/-- `Map.prototype.get` (absent key gives `undefined`, here `none`). -/
def DocStore.get : DocStore → String → Option String
  | [], _ => none
  | (k0, v0) :: rest, k => if k0 = k then some v0 else DocStore.get rest k

/-- JS falsiness of `map.get(id)` / `args?.[name]` for string values:
`undefined` and the empty string are falsy. -/
def falsyOptStr : Option String → Bool
  | none => true
  | some s => decide (s = "")

/-- `path.join(a, b)` for the simple two-argument uses in index.ts
(Node returns the other argument when one is empty, else joins with a
separator; normalization of embedded separators is not needed here). -/
def pathJoin (a b : String) : String :=
  if a = "" then b else if b = "" then a else a ++ "/" ++ b

/-- `String.prototype.split(sep)` for a one-character separator, on
character lists (JS semantics: splitting the empty string gives `[""]`). -/
def jsSplitChar (sep : Char) : List Char → List (List Char)
  | [] => [[]]
  | c :: rest =>
    match jsSplitChar sep rest with
    | [] => [[c]]
    | s :: ss => if c == sep then [] :: s :: ss else (c :: s) :: ss

/-- `String.prototype.split(sep)` on strings (one-character separator). -/
def jsSplit (s : String) (sep : Char) : List String :=
  (jsSplitChar sep s.data).map (fun l => ⟨l⟩)

/-- `path.basename(p)`: the last non-empty segment of `p` split on the
separator; `p` itself when there is no such segment. -/
def basename (p : String) : String :=
  match ((jsSplit p '/').filter (fun s => s ≠ "")).getLast? with
  | some s => s
  | none => p

/-- Boolean: `pat` is a leading run of `s` (character lists). -/
def leadsWith : List Char → List Char → Bool
  | [], _ => true
  | _ :: _, [] => false
  | a :: as, b :: bs => a == b && leadsWith as bs

/-- Boolean substring test on character lists (JS `String.includes`). -/
def listContains (pat : List Char) : List Char → Bool
  | [] => pat.isEmpty
  | b :: bs => leadsWith pat (b :: bs) || listContains pat bs

/-- Boolean substring test on strings. -/
def strContains (s pat : String) : Bool :=
  listContains pat.data s.data

/-- `Array.prototype.join(sep)` on a list of strings. -/
def joinSep (sep : String) : List String → String
  | [] => ""
  | [x] => x
  | x :: y :: rest => x ++ sep ++ joinSep sep (y :: rest)

/-- Drop leading whitespace from a character list. -/
def dropLeadingWs : List Char → List Char
  | [] => []
  | c :: rest => if c.isWhitespace then dropLeadingWs rest else c :: rest

/-- `String.prototype.trim()`: strip whitespace from both ends. -/
def jsTrim (s : String) : String :=
  ⟨(dropLeadingWs (dropLeadingWs s.data).reverse).reverse⟩

/-- `String.prototype.toLowerCase()` (ASCII, as used by
`getExampleValue`). -/
def jsToLower (s : String) : String :=
  ⟨s.data.map Char.toLower⟩

/-- JS template-literal interpolation of a possibly-absent string
(`undefined` renders as the text `undefined`). -/
def interp : Option String → String
  | some s => s
  | none => "undefined"

/-- A string with a non-empty left part of an append is non-empty. -/
theorem append_ne_empty_left (a b : String) (h : a ≠ "") : a ++ b ≠ "" := by
  intro he
  have hd := congrArg String.data he
  rw [String.data_append] at hd
  exact h (String.ext (List.append_eq_nil.mp hd).1)

/-- One declared argument of a prompt template (`required` is the JS
`required?: boolean`, absent meaning falsy). -/
structure PromptArgDef where
  name : String
  description : String
  required : Bool
deriving DecidableEq, Repr

/-- One prompt template entry of `this.prompts`. -/
structure PromptDef where
  name : String
  description : String
  arguments : List PromptArgDef
deriving DecidableEq, Repr

/-- `initializePrompts()`: the five static prompt templates, in declaration
order. -/
def promptsList : List (String × PromptDef) :=
  [ ("create-project",
     { name := "create-project"
       description := "Guide through creating a new Node.js project with best practices"
       arguments :=
         [ { name := "projectType"
             description := "Type of project to create (react, node, next, express, fastify)"
             required := true }
         , { name := "features"
             description := "Comma-separated list of features (e.g., typescript,testing,docker)"
             required := false } ] })
  , ("analyze-code",
     { name := "analyze-code"
       description := "Analyze code for potential improvements and best practices"
       arguments :=
         [ { name := "code", description := "Code to analyze", required := true }
         , { name := "language", description := "Programming language", required := true } ] })
  , ("generate-component",
     { name := "generate-component"
       description := "Generate a React component with TypeScript support"
       arguments :=
         [ { name := "name", description := "Component name", required := true }
         , { name := "type", description := "Component type (functional/class)", required := true } ] })
  , ("git-commit",
     { name := "git-commit"
       description := "Generate a descriptive Git commit message"
       arguments :=
         [ { name := "changes", description := "Git diff or description of changes", required := true } ] })
  , ("debug-error",
     { name := "debug-error"
       description := "Get suggestions for debugging a Node.js error"
       arguments :=
         [ { name := "error", description := "Error message or stack trace", required := true } ] }) ]

/-- A rendered prompt message (`role` plus the type and text fields of the
`content` object). -/
structure PromptMessage where
  role : String
  contentType : String
  text : String
deriving DecidableEq, Repr

/-- The derived feature list of the `create-project` template:
`args.features?.split(",").map(f => f.trim()) || []`. -/
def createProjectFeatures (features : Option String) : List String :=
  match features with
  | none => []
  | some f => (jsSplit f ',').map jsTrim

/-- `generatePromptMessages(name, args)`: renders one of the five fixed
templates; an unknown name throws `InvalidParams`. -/
def generatePromptMessages (name : String) (args : List (String × String)) :
    Except McpError (List PromptMessage) :=
  if name = "create-project" then
    let features := createProjectFeatures (alookup args "features")
    let pt := interp (alookup args "projectType")
    .ok [ { role := "user", contentType := "text"
            text := "Help me create a new " ++ pt ++
              " project with these requirements:\n\n1. Project Type: " ++ pt ++
              "\n2. Features: " ++
              (if features.length > 0 then joinSep ", " features else "basic setup") ++
              "\n\nPlease provide:\n1. Recommended project structure\n2. Essential dependencies to include\n3. Important configuration files\n4. Best practices for this type of project\n5. Common pitfalls to avoid\n" ++
              (if features.any (fun f => f = "typescript") then "6. TypeScript configuration recommendations" else "") ++ "\n" ++
              (if features.any (fun f => f = "testing") then "7. Testing setup and frameworks" else "") ++ "\n" ++
              (if features.any (fun f => f = "docker") then "8. Docker configuration guidance" else "") } ]
  else if name = "analyze-code" then
    .ok [ { role := "user", contentType := "text"
            text := "Please analyze this " ++ interp (alookup args "language") ++
              " code for potential improvements and best practices:\n\n" ++
              interp (alookup args "code") } ]
  else if name = "generate-component" then
    .ok [ { role := "user", contentType := "text"
            text := "Generate a " ++ interp (alookup args "type") ++
              " React component named " ++ interp (alookup args "name") ++
              " with TypeScript support. Include proper typing, error handling, and common best practices." } ]
  else if name = "git-commit" then
    .ok [ { role := "user", contentType := "text"
            text := "Generate a concise but descriptive commit message following conventional commits format for these changes:\n\n" ++
              interp (alookup args "changes") } ]
  else if name = "debug-error" then
    .ok [ { role := "user", contentType := "text"
            text := "Help me debug this Node.js error. Suggest potential causes and solutions:\n\n" ++
              interp (alookup args "error") } ]
  else
    .error ⟨.InvalidParams, "Invalid prompt name: " ++ name⟩

/-- The first declared argument that is flagged required but absent or
empty in `args` (the throwing iteration of the `forEach` validation in the
get-prompt handler). -/
def firstMissingArg : List PromptArgDef → List (String × String) → Option String
  | [], _ => none
  | a :: rest, args =>
    if a.required && falsyOptStr (alookup args a.name) then some a.name
    else firstMissingArg rest args

/-- The get-prompt request handler of `setupPromptHandlers()`: template
lookup, required-argument validation, then rendering. -/
def getPrompt (name : String) (args : List (String × String)) :
    Except McpError (List PromptMessage) :=
  match alookup promptsList name with
  | none => .error ⟨.InvalidParams, "Prompt not found: " ++ name⟩
  | some p =>
    match firstMissingArg p.arguments args with
    | some a => .error ⟨.InvalidParams, "Missing required argument: " ++ a⟩
    | none => generatePromptMessages name args

/-- Arguments of the `generate_component` tool (`props` is an optional JS
object, embedded as an insertion-ordered association list; `none` models an
absent — falsy — `props`, while `some []` models the truthy empty object). -/
structure GenerateComponentArgs where
  name : String
  path : String
  type : String
  props : Option (List (String × String))
deriving DecidableEq, Repr

/-- The `propsInterface` template of `generateComponentContent`: an
interface block when `args.props` is truthy (any object, even empty), the
empty string when absent. -/
def propsInterface (args : GenerateComponentArgs) : String :=
  match args.props with
  | none => ""
  | some props =>
    "interface " ++ args.name ++ "Props \x7b\n    " ++
      joinSep "\n    " (props.map (fun kv => kv.1 ++ ": " ++ kv.2 ++ ";")) ++
      "\n\x7d"

/-- `generateComponentContent(args)`: the generated `.tsx` component
source, functional or class variant. -/
def generateComponentContent (args : GenerateComponentArgs) : String :=
  if args.type = "functional" then
    "import React from \x27react\x27;\n\n" ++ propsInterface args ++ "\n\n" ++
      (match args.props with
       | some props =>
         "const " ++ args.name ++ ": React.FC<" ++ args.name ++ "Props> = (\x7b " ++
           joinSep ", " (props.map (fun kv => kv.1)) ++ " \x7d) => \x7b"
       | none => "const " ++ args.name ++ ": React.FC = () => \x7b") ++
      "\n    return (\n        <div>\n            \x7b/* Add your component content here */\x7d\n        </div>\n    );\n\x7d;\n\nexport default " ++
      args.name ++ ";\n"
  else
    "import React, \x7b Component \x7d from \x27react\x27;\n\n" ++ propsInterface args ++ "\n\n" ++
      "class " ++ args.name ++ " extends Component" ++
      (match args.props with
       | some _ => "<" ++ args.name ++ "Props>"
       | none => "") ++
      " \x7b\n    render() \x7b\n        return (\n            <div>\n                \x7b/* Add your component content here */\x7d\n            </div>\n        );\n    \x7d\n\x7d\n\nexport default " ++
      args.name ++ ";\n"

/-- `getExampleValue(type)`: the fixed type-name → example-literal table
used in the usage snippet of the component documentation. -/
def getExampleValue (type : String) : String :=
  let t := jsToLower type
  if t = "string" then "\"example\""
  else if t = "number" then "42"
  else if t = "boolean" then "true"
  else if t = "array" ∨ t = "string[]" then "[\"item1\", \"item2\"]"
  else if t = "object" then "\x7b key: \"value\" \x7d"
  else "undefined"

/-- `generateComponentDocumentation(args)`: the companion `.md` file written
next to a generated component. -/
def generateComponentDocumentation (args : GenerateComponentArgs) : String :=
  "# " ++ args.name ++ " Component\n\n## Overview\n" ++
    (if args.type = "functional" then "A functional React component"
     else "A class-based React component") ++
    "\n\n## Props\n" ++
    (match args.props with
     | some props =>
       joinSep "\n" (props.map (fun kv => "- `" ++ kv.1 ++ "`: " ++ kv.2))
     | none => "This component does not accept any props.") ++
    "\n\n## Usage\n```tsx\nimport " ++ args.name ++ " from \x27./" ++ args.name ++ "\x27;\n\n" ++
    (match args.props with
     | some props =>
       "// Example usage with props\n<" ++ args.name ++ " " ++
         joinSep " " (props.map (fun kv => kv.1 ++ "=\x7b" ++ getExampleValue kv.2 ++ "\x7d")) ++
         " />"
     | none => "// Example usage\n<" ++ args.name ++ " />") ++
    "\n```\n"

/-- Arguments of the `create_project` tool.  The `typescript` field is
declared `boolean?` but arrives as an unchecked cast of raw JSON, so it is
embedded as an arbitrary optional JS value. -/
structure CreateProjectArgs where
  name : String
  type : String
  path : String
  typescript : Option JSVal

/-- The strict comparison `args.typescript === false` (only the boolean
value `false` matches). -/
def isExplicitFalse : Option JSVal → Bool
  | some (.bool false) => true
  | _ => false

/-- `args.typescript !== false`: the effective TypeScript flag of
`handleCreateProject`. -/
def tsEnabled (v : Option JSVal) : Bool :=
  !(isExplicitFalse v)

/-- The subprocess environment: `execAsync(cmd, { cwd })` returning stdout
or failing with an error message. -/
structure Env where
  exec : String → String → Except String String

/-- One per-type template bundle of `getProjectTemplate`. -/
structure Template where
  command : String
  dependencies : List String
  devDependencies : List String
deriving DecidableEq, Repr

set_option linter.unusedVariables false in
/-- `getProjectTemplate(type, name, typescript)`: resolves the per-type
template bundle, or throws `InvalidParams` for an unknown type (the `name`
parameter is unused, as in the source). -/
def getProjectTemplate (type name : String) (typescript : Bool) : Except McpError Template :=
  let template : Option Template :=
    if type = "react" then some
      { command := if typescript then "npx create-react-app ./ --template typescript"
                   else "npx create-react-app ./"
        dependencies := ["react", "react-dom"]
        devDependencies := if typescript then ["@types/react", "@types/react-dom", "@types/node"] else [] }
    else if type = "next" then some
      { command := "npx create-next-app@latest ./ " ++ (if typescript then "--typescript" else "") ++ " --tailwind --eslint"
        dependencies := ["next", "react", "react-dom"]
        devDependencies := if typescript then ["@types/node", "@types/react", "@types/react-dom"] else [] }
    else if type = "express" then some
      { command := "npm init -y"
        dependencies := ["express", "cors", "dotenv"]
        devDependencies := if typescript then ["typescript", "@types/node", "@types/express", "@types/cors", "ts-node", "nodemon"] else ["nodemon"] }
    else if type = "fastify" then some
      { command := "npm init -y"
        dependencies := ["fastify", "@fastify/cors", "@fastify/env"]
        devDependencies := if typescript then ["typescript", "@types/node", "ts-node", "nodemon"] else ["nodemon"] }
    else if type = "node" then some
      { command := "npm init -y"
        dependencies := []
        devDependencies := if typescript then ["typescript", "@types/node", "ts-node", "nodemon"] else ["nodemon"] }
    else none
  match template with
  | none => .error ⟨.InvalidParams, "Unsupported project type: " ++ type⟩
  | some t => .ok t

/-- The `tsConfig` object of `handleCreateProject`, as serialized by
`JSON.stringify(tsConfig, null, 2)` (the `jsx` key is present only for
react/next; `undefined` values are omitted by the serializer). -/
def tsConfigContent (type : String) : String :=
  "\x7b\n  \"compilerOptions\": \x7b\n    \"target\": \"es2020\",\n    \"module\": \"commonjs\",\n    \"outDir\": \"./dist\",\n    \"rootDir\": \"./src\",\n    \"strict\": true,\n    \"esModuleInterop\": true,\n    \"skipLibCheck\": true,\n    \"forceConsistentCasingInFileNames\": true" ++
    (if type = "react" ∨ type = "next" then ",\n    \"jsx\": \"react-jsx\"" else "") ++
    "\n  \x7d,\n  \"include\": [\n    \"src/**/*\"\n  ],\n  \"exclude\": [\n    \"node_modules\",\n    \"dist\"\n  ]\n\x7d"

/-- `generateReadme(name, type, typescript)`: the fixed README template. -/
def generateReadme (name type : String) (typescript : Bool) : String :=
  "# " ++ name ++ "\n\n## Description\nA " ++ type ++ " project using " ++
    (if typescript then "TypeScript" else "JavaScript") ++
    ".\n\n## Setup\n```bash\nnpm install\n```\n\n## Development\n```bash\nnpm run dev\n```\n\n## Build\n```bash\nnpm run build\n```\n\n## Project Structure\n- `src/` - Source files\n" ++
    (if typescript then "- `dist/` - Compiled output\n" else "") ++
    "\n- `public/` - Static assets\n- `package.json` - Project configuration\n" ++
    (if typescript then "- `tsconfig.json` - TypeScript configuration\n" else "") ++
    "\n## Scripts\n- `npm run dev` - Start development server\n- `npm run build` - Build for production\n- `npm start` - Start production server\n"

/-- The outcome of one tool handler: the effect trace, the document store
after the call, and the result or error. -/
structure HandlerOut where
  ops : List FsOp
  docs : DocStore
  result : Except McpError String

/-- The catch-all of `handleCreateProject`: every exception, including an
`McpError` thrown by `getProjectTemplate`, is re-wrapped as an
`InternalError` (the catch has no `instanceof McpError` pass-through). -/
def createProjectWrap (t : Thrown) : McpError :=
  ⟨.InternalError, "Failed to create project: " ++ thrownText t⟩

/-- The guarded dependency-install steps of `handleCreateProject`
(`if (list.length > 0) await execAsync(npm install ...)`). -/
def installStep (env : Env) (cwd : String) (dev : Bool) (pkgs : List String) :
    List FsOp × Except String Unit :=
  match pkgs with
  | [] => ([], .ok ())
  | _ =>
    let cmd := (if dev then "npm install --save-dev " else "npm install ") ++ joinSep " " pkgs
    match env.exec cmd cwd with
    | .error msg => ([FsOp.exec cmd cwd], .error msg)
    | .ok _ => ([FsOp.exec cmd cwd], .ok ())

/-- `handleCreateProject(args)`: directory creation, template resolution,
generator invocation, dependency installs, TypeScript configuration, README
emission and document-store update, with the step sequence aborting at the
first failure.  Plain directory/file writes are modelled as succeeding; the
subprocess boundary is the `Env` oracle. -/
def handleCreateProject (env : Env) (docs : DocStore) (args : CreateProjectArgs) : HandlerOut :=
  let projectPath := pathJoin args.path args.name
  let typescript := tsEnabled args.typescript
  let ops0 := [FsOp.mkdir projectPath]
  match getProjectTemplate args.type args.name typescript with
  | .error e => ⟨ops0, docs, .error (createProjectWrap (.mcp e))⟩
  | .ok template =>
    let ops1 := ops0 ++ [FsOp.exec template.command projectPath]
    match env.exec template.command projectPath with
    | .error msg => ⟨ops1, docs, .error (createProjectWrap (.js msg))⟩
    | .ok _ =>
      match installStep env projectPath false template.dependencies with
      | (instOps, .error msg) => ⟨ops1 ++ instOps, docs, .error (createProjectWrap (.js msg))⟩
      | (instOps, .ok _) =>
        match installStep env projectPath true template.devDependencies with
        | (devOps, .error msg) => ⟨ops1 ++ instOps ++ devOps, docs, .error (createProjectWrap (.js msg))⟩
        | (devOps, .ok _) =>
          let tsOps := if typescript then
              [FsOp.mkdir (pathJoin projectPath "src"),
               FsOp.writeFile (pathJoin projectPath "tsconfig.json") (tsConfigContent args.type)]
            else []
          let readme := generateReadme args.name args.type typescript
          ⟨ops1 ++ instOps ++ devOps ++ tsOps ++ [FsOp.writeFile (pathJoin projectPath "README.md") readme],
           docs.set args.name readme,
           .ok ("Project " ++ args.name ++ " created successfully with " ++
             (if typescript then "TypeScript" else "JavaScript") ++ " configuration")⟩

/-- The relevant `package.json` fields read by
`generateProjectDocumentation` (absent optional sections parse to the empty
mapping, matching `packageJson.scripts || {}` etc.). -/
structure PackageJson where
  name : String
  description : Option String
  scripts : List (String × String)
  dependencies : List (String × String)
  devDependencies : List (String × String)

/-- The filesystem boundary as seen by the handlers: existence and
directory-ness checks, raw file reads, the parsed `package.json` of a
directory (`readFile` + `JSON.parse`, failing with the underlying error
message), and the capture group 2 of the best-effort
`/interface (\w+)Props \x7b([^\x7d]+)\x7d/` match of `generateComponentDoc`
(`none` when the pattern does not match). -/
structure Fs where
  present : String → Bool
  isDir : String → Bool
  readFile : String → Except String String
  packageJson : String → Except String PackageJson
  propsMatch : String → Option String

/-- `validatePath(path)`: create the directory if absent, succeed if it is
a directory, fail with `InvalidParams` if it exists as a non-directory.
(`mkdir`/`stat` themselves are modelled as succeeding.) -/
def validatePath (fs : Fs) (p : String) : List FsOp × Except McpError Unit :=
  if fs.present p then
    if fs.isDir p then ([FsOp.access p, FsOp.stat p], .ok ())
    else ([FsOp.access p, FsOp.stat p],
      .error ⟨.InvalidParams, "Path " ++ p ++ " exists but is not a directory"⟩)
  else ([FsOp.access p, FsOp.mkdir p], .ok ())

/-- `generateProjectDocumentation(projectPath)` as a function of the parsed
`package.json` (`description || "A Node.js project"` with JS falsy-or semantics). -/
def generateProjectDocumentation (pj : PackageJson) : String :=
  "# " ++ pj.name ++ "\n\n## Description\n" ++
    (match pj.description with
     | some d => if d = "" then "A Node.js project" else d
     | none => "A Node.js project") ++
    "\n\n## Installation\n```bash\nnpm install\n```\n\n## Scripts\n" ++
    joinSep "\n" (pj.scripts.map (fun kv => "- `npm run " ++ kv.1 ++ "`: " ++ kv.2)) ++
    "\n\n## Dependencies\n" ++
    joinSep "\n" (pj.dependencies.map (fun kv => "- `" ++ kv.1 ++ "`: " ++ kv.2)) ++
    "\n\n## Dev Dependencies\n" ++
    joinSep "\n" (pj.devDependencies.map (fun kv => "- `" ++ kv.1 ++ "`: " ++ kv.2)) ++
    "\n"

/-- `generateApiDocumentation(projectPath)`: a fixed placeholder skeleton. -/
def apiDocContent : String :=
  "# API Documentation\n\n## Endpoints\n\n### GET /api\nDescription of the GET /api endpoint\n\n### POST /api\nDescription of the POST /api endpoint\n\n## Models\nDescription of your data models\n\n## Authentication\nDescription of your authentication methods\n"

/-- `generateComponentDoc(projectPath, componentName)` as a function of the
regex-extraction result on the component source (`match[2].trim()` when the
pattern matched, else the fallback). -/
def generateComponentDocText (componentName : String) (propsMatchResult : Option String) : String :=
  "# " ++ componentName ++ " Component\n\n## Props\n```typescript\n" ++
    (match propsMatchResult with
     | some m => jsTrim m
     | none => "No props defined") ++
    "\n```\n\n## Usage\n```tsx\nimport " ++ componentName ++ " from \x27./" ++ componentName ++
    "\x27;\n\n// Example usage\n<" ++ componentName ++ " />\n```\n\n## Description\nAdd component description here.\n"

/-- The documentation type enumeration of `create_documentation`
(`readme | api | component`). -/
inductive DocType where
  | readme
  | api
  | component
deriving DecidableEq, Repr

/-- Arguments of the `create_documentation` tool. -/
structure CreateDocumentationArgs where
  path : String
  type : DocType
  name : Option String
deriving DecidableEq, Repr

/-- The catch-all of `handleCreateDocumentation`: every exception thrown in
the body — including the `InvalidParams` `McpError` for a missing component
name — is re-wrapped as an `InternalError`. -/
def createDocumentationWrap (t : Thrown) : McpError :=
  ⟨.InternalError, "Failed to create documentation: " ++ thrownText t⟩

/-- The `switch (args.type)` body of `handleCreateDocumentation`: the
generated content and target file name, or the thrown value. -/
def createDocumentationBody (fs : Fs) (args : CreateDocumentationArgs) :
    Except Thrown (String × String) :=
  match args.type with
  | .readme =>
    match fs.packageJson args.path with
    | .error msg => .error (.js msg)
    | .ok pj => .ok (generateProjectDocumentation pj, "README.md")
  | .api => .ok (apiDocContent, "API.md")
  | .component =>
    match args.name with
    | none => .error (.mcp ⟨.InvalidParams, "Component name is required for component documentation"⟩)
    | some n =>
      match fs.readFile (pathJoin args.path (n ++ ".tsx")) with
      | .error msg => .error (.mcp ⟨.InternalError,
          "Failed to generate component documentation: " ++ msg⟩)
      | .ok src => .ok (generateComponentDocText n (fs.propsMatch src), n ++ ".md")

/-- `handleCreateDocumentation(args)`: path validation, content generation
by type, file write, and document-store insertion keyed by
`path.basename(args.path)`. -/
def handleCreateDocumentation (fs : Fs) (docs : DocStore) (args : CreateDocumentationArgs) : HandlerOut :=
  match validatePath fs args.path with
  | (vops, .error e) => ⟨vops, docs, .error e⟩
  | (vops, .ok _) =>
    match createDocumentationBody fs args with
    | .error t => ⟨vops, docs, .error (createDocumentationWrap t)⟩
    | .ok (content, fileName) =>
      let docPath := pathJoin args.path fileName
      ⟨vops ++ [FsOp.writeFile docPath content],
       docs.set (basename args.path) content,
       .ok ("Documentation created successfully at " ++ docPath)⟩

/-- The read-resource handler of `setupResourceHandlers()`, as a function
of the id extracted from the `docs://<id>` URI: absent **or empty** stored
content (`if (!content)`) fails with `MethodNotFound`. -/
def readResource (docs : DocStore) (id : String) : Except McpError String :=
  let content := docs.get id
  if falsyOptStr content then
    .error ⟨.MethodNotFound, "Documentation not found for " ++ id⟩
  else
    .ok (content.getD "")

/-- The action names of the `CallToolRequestSchema` switch, in case
order. -/
def toolNames : List String :=
  ["create_project", "install_packages", "generate_component", "create_type_definition",
   "add_script", "update_tsconfig", "create_documentation"]

/-- The call-tool dispatcher: a known name runs its handler (whose result
is abstracted here; a thrown `McpError` passes through the
`instanceof McpError` check unchanged), the `default` case throws
`MethodNotFound`. -/
def callTool (handlerResult : Except McpError String) (name : String) : Except McpError String :=
  if name ∈ toolNames then handlerResult
  else .error ⟨.MethodNotFound, "Unknown tool: " ++ name⟩

/-- The `tsconfig.json` shape used by `handleUpdateTsConfig`
(`compilerOptions` plus the optional include/exclude arrays). -/
structure TsConfig where
  compilerOptions : List (String × JSVal)
  includeGlobs : Option (List String)
  excludeGlobs : Option (List String)

/-- The JS object spread `{ ...a, ...b }` on insertion-ordered records:
keys of `a` in order with same-named values overridden from `b`, followed
by the keys of `b` not present in `a`. -/
def recordSpread {α : Type} (a b : List (String × α)) : List (String × α) :=
  a.map (fun kv =>
    match alookup b kv.1 with
    | some v => (kv.1, v)
    | none => kv) ++
    b.filter (fun kv => (alookup a kv.1).isNone)

/-- The fresh configuration built by the `catch` of `handleUpdateTsConfig`
when `tsconfig.json` is absent or unparseable. -/
def defaultTsConfig : TsConfig :=
  { compilerOptions := []
    includeGlobs := some ["src/**/*"]
    excludeGlobs := some ["node_modules", "dist"] }

/-- The configuration written back by `handleUpdateTsConfig(path, options)`:
the existing parsed file (or the fresh default) with `options` spread into
`compilerOptions`.  `existing = none` models an absent or unparseable
`tsconfig.json`. -/
def handleUpdateTsConfig (existing : Option TsConfig) (options : List (String × JSVal)) : TsConfig :=
  let tsconfig := existing.getD defaultTsConfig
  { tsconfig with compilerOptions := recordSpread tsconfig.compilerOptions options }

theorem alookup_append {α : Type} (l1 l2 : List (String × α)) (k : String) :
    alookup (l1 ++ l2) k = ((alookup l1 k).rec (alookup l2 k) (fun v => some v)) := by
  induction l1 with
  | nil => simp [alookup]
  | cons hd tl ih =>
    obtain ⟨k0, v0⟩ := hd
    by_cases h : k0 = k <;> simp [alookup, h, ih]

theorem alookup_override {α : Type} (a b : List (String × α)) (k : String) :
    alookup (a.map (fun kv =>
      match alookup b kv.1 with
      | some v => (kv.1, v)
      | none => kv)) k =
      (alookup a k).map (fun v => (alookup b k).getD v) := by
  induction a with
  | nil => simp [alookup]
  | cons hd tl ih =>
    obtain ⟨k0, v0⟩ := hd
    by_cases h : k0 = k
    · subst h
      cases hb : alookup b k0 <;> simp [alookup, hb]
    · cases hb : alookup b k0 <;> simp [alookup, h, hb, ih]

theorem alookup_filter_notin {α : Type} (a b : List (String × α)) (k : String) :
    alookup (b.filter (fun kv => (alookup a kv.1).isNone)) k =
      if (alookup a k).isNone then alookup b k else none := by
  induction b with
  | nil => simp [alookup]
  | cons hd tl ih =>
    obtain ⟨k0, v0⟩ := hd
    by_cases h : k0 = k
    · subst h
      cases ha : alookup a k0 <;> simp [alookup, List.filter, ha, ih]
    · cases hp : (alookup a k0).isNone <;> simp [alookup, List.filter, h, hp, ih]

/-- Lookup in a spread record: a key of `b` wins, otherwise `a` is
consulted. -/
theorem alookup_recordSpread {α : Type} (a b : List (String × α)) (k : String) :
    alookup (recordSpread a b) k =
      match alookup b k with
      | some v => some v
      | none => alookup a k := by
  rw [recordSpread, alookup_append, alookup_override, alookup_filter_notin]
  cases ha : alookup a k <;> cases hb : alookup b k <;> simp

/-- Overwriting insert followed by lookup of the same key. -/
theorem DocStore.get_set (docs : DocStore) (k v : String) :
    (docs.set k v).get k = some v := by
  induction docs with
  | nil => simp [DocStore.set, DocStore.get]
  | cons hd tl ih =>
    obtain ⟨k0, v0⟩ := hd
    by_cases h : k0 = k <;> simp [DocStore.set, DocStore.get, h, ih]

/-- Reading back a freshly stored non-empty document succeeds. -/
theorem readResource_set (docs : DocStore) (k c : String) (hc : c ≠ "") :
    readResource (docs.set k c) k = .ok c := by
  simp [readResource, DocStore.get_set, falsyOptStr, hc]

/-- A list leads with itself followed by anything. -/
theorem leadsWith_self_append (l r : List Char) : leadsWith l (l ++ r) = true := by
  induction l with
  | nil => rfl
  | cons c cs ih => simp [leadsWith, ih]

/-- Concrete environment whose subprocess invocations all succeed with
empty output. -/
def env0 : Env := ⟨fun _ _ => .ok ""⟩

/-- Concrete filesystem with nothing present and all reads failing. -/
def fs0 : Fs :=
  { present := fun _ => false
    isDir := fun _ => false
    readFile := fun _ => .error "ENOENT"
    packageJson := fun _ => .error "ENOENT"
    propsMatch := fun _ => none }

/-- Concrete filesystem that parses a fixed `package.json` everywhere. -/
def fs1 : Fs :=
  { present := fun _ => false
    isDir := fun _ => false
    readFile := fun _ => .error "ENOENT"
    packageJson := fun _ => .ok
      { name := "demo", description := none, scripts := [], dependencies := [], devDependencies := [] }
    propsMatch := fun _ => none }

/-- Claim C4: `update_tsconfig` performs a shallow last-write-wins merge
into `compilerOptions`: after two invocations, every key of the second
set of options maps to the value from the second call, and every key of the
first set not overridden by the second maps to the value from the first
call (hence disjoint calls yield the union of both key sets). -/
theorem updateTsConfig_lastWriteWins (existing : Option TsConfig)
    (o1 o2 : List (String × JSVal)) :
    (∀ k v, alookup o2 k = some v →
      alookup (handleUpdateTsConfig (some (handleUpdateTsConfig existing o1)) o2).compilerOptions k = some v) ∧
    (∀ k v, alookup o2 k = none → alookup o1 k = some v →
      alookup (handleUpdateTsConfig (some (handleUpdateTsConfig existing o1)) o2).compilerOptions k = some v) := by
  constructor
  · intro k v h2
    simp [handleUpdateTsConfig, alookup_recordSpread, h2]
  · intro k v h2 h1
    simp [handleUpdateTsConfig, alookup_recordSpread, h2, h1]

/-- Witness for C4 at concrete inputs: the overlapping key `target` takes
the value from the second call while `strict` from the first call
survives. -/
theorem updateTsConfig_lastWriteWins_witness :
    alookup (handleUpdateTsConfig (some (handleUpdateTsConfig none
        [("strict", JSVal.bool true), ("target", JSVal.str "es5")]))
        [("target", JSVal.str "es2021")]).compilerOptions "target" = some (JSVal.str "es2021") ∧
    alookup (handleUpdateTsConfig (some (handleUpdateTsConfig none
        [("strict", JSVal.bool true), ("target", JSVal.str "es5")]))
        [("target", JSVal.str "es2021")]).compilerOptions "strict" = some (JSVal.bool true) :=
  ⟨(updateTsConfig_lastWriteWins none
      [("strict", JSVal.bool true), ("target", JSVal.str "es5")]
      [("target", JSVal.str "es2021")]).1 "target" (JSVal.str "es2021") rfl,
   (updateTsConfig_lastWriteWins none
      [("strict", JSVal.bool true), ("target", JSVal.str "es5")]
      [("target", JSVal.str "es2021")]).2 "strict" (JSVal.bool true) rfl rfl⟩

/-- Claim C6 counterexample: requesting an unknown prompt surfaces
`InvalidParams` ("Prompt not found"), not the method-not-found code the
claim asserts. -/
theorem unknownPrompt_code_cex :
    getPrompt "nonexistent" [] = .error ⟨.InvalidParams, "Prompt not found: nonexistent"⟩ ∧
    ErrorCode.InvalidParams ≠ ErrorCode.MethodNotFound := by
  exact ⟨rfl, by decide⟩

/-- Claim C6 (amended): an unknown action name and an absent content id
surface `MethodNotFound`; an unknown prompt name surfaces `InvalidParams`. -/
theorem lookupFailure_codes :
    (∀ (res : Except McpError String) (name : String), name ∉ toolNames →
      callTool res name = .error ⟨.MethodNotFound, "Unknown tool: " ++ name⟩) ∧
    (∀ (docs : DocStore) (id : String), docs.get id = none →
      readResource docs id = .error ⟨.MethodNotFound, "Documentation not found for " ++ id⟩) ∧
    (∀ (name : String) (args : List (String × String)), alookup promptsList name = none →
      getPrompt name args = .error ⟨.InvalidParams, "Prompt not found: " ++ name⟩) := by
  refine ⟨fun res name h => ?_, fun docs id h => ?_, fun name args h => ?_⟩
  · simp [callTool, h]
  · simp [readResource, h, falsyOptStr]
  · simp [getPrompt, h]

/-- Witness for the amended C6 at concrete inputs. -/
theorem lookupFailure_codes_witness :
    callTool (.ok "x") "frobnicate" = .error ⟨.MethodNotFound, "Unknown tool: frobnicate"⟩ ∧
    readResource [] "missing" = .error ⟨.MethodNotFound, "Documentation not found for missing"⟩ ∧
    getPrompt "mystery" [] = .error ⟨.InvalidParams, "Prompt not found: mystery"⟩ :=
  ⟨lookupFailure_codes.1 (.ok "x") "frobnicate" (by decide),
   lookupFailure_codes.2.1 [] "missing" rfl,
   lookupFailure_codes.2.2 "mystery" [] rfl⟩

/-- Claim C8: `generate_component` with a functional type and
`props = {count: number}` yields a component containing the
`count: number;` interface field and documentation whose example supplies
`count={42}`; plus the fixed type-to-example-literal table. -/
theorem generateComponent_countNumber :
    strContains (generateComponentContent
      ⟨"Counter", "/pr", "functional", some [("count", "number")]⟩) "count: number;" = true ∧
    strContains (generateComponentDocumentation
      ⟨"Counter", "/pr", "functional", some [("count", "number")]⟩) "count=\x7b42\x7d" = true ∧
    getExampleValue "string" = "\"example\"" ∧
    getExampleValue "number" = "42" ∧
    getExampleValue "boolean" = "true" ∧
    getExampleValue "array" = "[\"item1\", \"item2\"]" ∧
    getExampleValue "string[]" = "[\"item1\", \"item2\"]" ∧
    getExampleValue "object" = "\x7b key: \"value\" \x7d" ∧
    getExampleValue "Widget" = "undefined" := by
  exact ⟨by decide, by decide, rfl, rfl, rfl, rfl, rfl, rfl, rfl⟩

/-- Claim C9 counterexample: an **empty** props mapping is a truthy JS
object, so the generated component still contains the (empty) props
interface block, contradicting the claim that no interface block is
emitted. -/
theorem emptyProps_interface_cex :
    strContains (generateComponentContent ⟨"Foo", "/p", "functional", some []⟩)
      "interface FooProps" = true := by
  decide

/-- Claim C9 (amended): the interface block is omitted exactly when `props`
is absent; any supplied props object — the empty mapping included — yields
an interface block, embedded verbatim in the component source. -/
theorem propsInterfacePresence (args : GenerateComponentArgs) :
    (args.props = none → propsInterface args = "") ∧
    (∀ ps, args.props = some ps →
      leadsWith "interface ".data (propsInterface args).data = true) ∧
    (∃ pre post, generateComponentContent args = pre ++ (propsInterface args ++ post)) := by
  refine ⟨fun h => by simp [propsInterface, h], fun ps h => ?_, ?_⟩
  · have : propsInterface args = "interface " ++
        (args.name ++ "Props \x7b\n    " ++
          joinSep "\n    " (ps.map (fun kv => kv.1 ++ ": " ++ kv.2 ++ ";")) ++ "\n\x7d") := by
      simp [propsInterface, h, String.append_assoc]
    rw [this, String.data_append]
    exact leadsWith_self_append _ _
  · by_cases ht : args.type = "functional"
    · refine ⟨"import React from \x27react\x27;\n\n", ?_, ?_⟩
      · exact "\n\n" ++
          (match args.props with
           | some props =>
             "const " ++ args.name ++ ": React.FC<" ++ args.name ++ "Props> = (\x7b " ++
               joinSep ", " (props.map (fun kv => kv.1)) ++ " \x7d) => \x7b"
           | none => "const " ++ args.name ++ ": React.FC = () => \x7b") ++
          "\n    return (\n        <div>\n            \x7b/* Add your component content here */\x7d\n        </div>\n    );\n\x7d;\n\nexport default " ++
          args.name ++ ";\n"
      · simp [generateComponentContent, ht, String.append_assoc]
    · refine ⟨"import React, \x7b Component \x7d from \x27react\x27;\n\n", ?_, ?_⟩
      · exact "\n\nclass " ++ args.name ++ " extends Component" ++
          (match args.props with
           | some _ => "<" ++ args.name ++ "Props>"
           | none => "") ++
          " \x7b\n    render() \x7b\n        return (\n            <div>\n                \x7b/* Add your component content here */\x7d\n            </div>\n        );\n    \x7d\n\x7d\n\nexport default " ++
          args.name ++ ";\n"
      · simp [generateComponentContent, ht, String.append_assoc]

/-- Witness for the amended C9: the empty props object of the
counterexample input indeed produces an interface-led block. -/
theorem propsInterfacePresence_witness :
    leadsWith "interface ".data (propsInterface ⟨"Bar", "/q", "class", some []⟩).data = true :=
  (propsInterfacePresence ⟨"Bar", "/q", "class", some []⟩).2.1 [] rfl

/-- Claim C7: the create-project prompt splits `features` on commas and
trims each entry, and with `features = "typescript, docker"` the rendered
message contains the TypeScript and Docker guidance lines and omits the
testing line. -/
theorem createProjectPrompt_features :
    createProjectFeatures (some "typescript, docker") = ["typescript", "docker"] ∧
    (∃ msg, getPrompt "create-project"
        [("projectType", "react"), ("features", "typescript, docker")] = .ok [msg] ∧
      strContains msg.text "6. TypeScript configuration recommendations" = true ∧
      strContains msg.text "8. Docker configuration guidance" = true ∧
      strContains msg.text "7. Testing setup and frameworks" = false) := by
  refine ⟨rfl, ⟨_, rfl, by decide, by decide, by decide⟩⟩

/-- The throwing `forEach` of the get-prompt handler stops at the first
declared argument that is required but absent or empty, and that argument
is genuinely the first such one in declaration order. -/
theorem firstMissingArg_first (l : List PromptArgDef) (args : List (String × String))
    (h : ∃ d ∈ l, d.required = true ∧ falsyOptStr (alookup args d.name) = true) :
    ∃ pre d post, l = pre ++ d :: post ∧ d.required = true ∧
      falsyOptStr (alookup args d.name) = true ∧
      (∀ d2 ∈ pre, ¬(d2.required = true ∧ falsyOptStr (alookup args d2.name) = true)) ∧
      firstMissingArg l args = some d.name := by
  induction l with
  | nil => simp at h
  | cons hd tl ih =>
    by_cases hc : (hd.required && falsyOptStr (alookup args hd.name)) = true
    · obtain ⟨hr, hf⟩ : hd.required = true ∧ falsyOptStr (alookup args hd.name) = true := by
        simpa using hc
      exact ⟨[], hd, tl, rfl, hr, hf, by simp, by simp [firstMissingArg, hc]⟩
    · have htl : ∃ d ∈ tl, d.required = true ∧ falsyOptStr (alookup args d.name) = true := by
        obtain ⟨d, hmem, hdr, hdf⟩ := h
        rcases List.mem_cons.mp hmem with heq | hmem2
        · exfalso
          apply hc
          rw [← heq]
          simp [hdr, hdf]
        · exact ⟨d, hmem2, hdr, hdf⟩
      obtain ⟨pre, d, post, heq, hr, hf, hpre, hfm⟩ := ih htl
      refine ⟨hd :: pre, d, post, by rw [heq]; rfl, hr, hf, ?_, ?_⟩
      · intro d2 hd2
        rcases List.mem_cons.mp hd2 with heq2 | hmem3
        · intro ⟨ha, hb⟩
          rw [heq2] at ha hb
          exact hc (by simp [ha, hb])
        · exact hpre d2 hmem3
      · simp [firstMissingArg, hc, hfm]

/-- Claim C5: a get-prompt request whose arguments leave some
required-flagged declared argument absent or empty fails with
`InvalidParams` naming the first such argument in declaration order, and
returns no rendered message. -/
theorem getPrompt_missingRequired (name : String) (p : PromptDef)
    (args : List (String × String))
    (hp : alookup promptsList name = some p)
    (h : ∃ d ∈ p.arguments, d.required = true ∧ falsyOptStr (alookup args d.name) = true) :
    ∃ pre d post, p.arguments = pre ++ d :: post ∧ d.required = true ∧
      falsyOptStr (alookup args d.name) = true ∧
      (∀ d2 ∈ pre, ¬(d2.required = true ∧ falsyOptStr (alookup args d2.name) = true)) ∧
      getPrompt name args = .error ⟨.InvalidParams, "Missing required argument: " ++ d.name⟩ := by
  obtain ⟨pre, d, post, heq, hr, hf, hpre, hfm⟩ := firstMissingArg_first p.arguments args h
  exact ⟨pre, d, post, heq, hr, hf, hpre, by simp [getPrompt, hp, hfm]⟩

/-- Witness for C5: requesting analyze-code with only `code` supplied
fails naming `language`, the first (and only) missing required argument. -/
theorem getPrompt_missingRequired_witness :
    ∃ pre d post,
      [PromptArgDef.mk "code" "Code to analyze" true,
       PromptArgDef.mk "language" "Programming language" true] = pre ++ d :: post ∧
      d.required = true ∧
      falsyOptStr (alookup [("code", "let x = 1")] d.name) = true ∧
      (∀ d2 ∈ pre, ¬(d2.required = true ∧ falsyOptStr (alookup [("code", "let x = 1")] d2.name) = true)) ∧
      getPrompt "analyze-code" [("code", "let x = 1")] =
        .error ⟨.InvalidParams, "Missing required argument: " ++ d.name⟩ :=
  getPrompt_missingRequired "analyze-code"
    ⟨"analyze-code", "Analyze code for potential improvements and best practices",
      [⟨"code", "Code to analyze", true⟩, ⟨"language", "Programming language", true⟩]⟩
    [("code", "let x = 1")] rfl
    ⟨⟨"language", "Programming language", true⟩, by decide, rfl, rfl⟩

/-- Claim C1 counterexample: invoking create_project with the unsupported
type `vue` creates the directory `path/name` (a filesystem mutation) before
the type check, and the surfaced error is `InternalError` — the catch of
the handler re-wraps the `InvalidParams` thrown by `getProjectTemplate` — so the
claimed `InvalidParams`-with-no-mutation behavior is refuted. -/
theorem createProject_badType_cex :
    (handleCreateProject env0 [] ⟨"app", "vue", "/tmp", none⟩).ops = [FsOp.mkdir "/tmp/app"] ∧
    (handleCreateProject env0 [] ⟨"app", "vue", "/tmp", none⟩).result =
      .error ⟨.InternalError,
        "Failed to create project: MCP error -32602: Unsupported project type: vue"⟩ ∧
    ErrorCode.InternalError ≠ ErrorCode.InvalidParams := by
  refine ⟨rfl, ?_, by decide⟩
  show Except.error (createProjectWrap (.mcp ⟨.InvalidParams, "Unsupported project type: " ++ "vue"⟩)) = _
  simp [createProjectWrap, thrownText, mcpErrorText, errorCodeNum]

/-- Claim C1 (amended): for every unsupported `type`, create_project first
creates the directory `path/name` (its only filesystem effect) and then
fails with an `InternalError` wrapping the unsupported-type message. -/
theorem createProject_badType (env : Env) (docs : DocStore) (args : CreateProjectArgs)
    (h1 : args.type ≠ "react") (h2 : args.type ≠ "next") (h3 : args.type ≠ "express")
    (h4 : args.type ≠ "fastify") (h5 : args.type ≠ "node") :
    handleCreateProject env docs args =
      ⟨[FsOp.mkdir (pathJoin args.path args.name)], docs,
       .error ⟨.InternalError,
         "Failed to create project: MCP error -32602: Unsupported project type: " ++ args.type⟩⟩ := by
  have ht : getProjectTemplate args.type args.name (tsEnabled args.typescript) =
      .error ⟨.InvalidParams, "Unsupported project type: " ++ args.type⟩ := by
    simp [getProjectTemplate, h1, h2, h3, h4, h5]
  simp [handleCreateProject, ht, createProjectWrap, thrownText, mcpErrorText, errorCodeNum,
    ← String.append_assoc]

/-- Witness for the amended C1 at a concrete unsupported type. -/
theorem createProject_badType_witness :
    handleCreateProject env0 [] ⟨"site", "svelte", "/srv", none⟩ =
      ⟨[FsOp.mkdir (pathJoin "/srv" "site")], [],
       .error ⟨.InternalError,
         "Failed to create project: MCP error -32602: Unsupported project type: " ++ "svelte"⟩⟩ :=
  createProject_badType env0 [] ⟨"site", "svelte", "/srv", none⟩
    (by decide) (by decide) (by decide) (by decide) (by decide)

/-- Claim C3 counterexample: create_documentation with `type = component`
and no name performs filesystem I/O first (the `validatePath` access and
directory creation), and the surfaced error is `InternalError` — the catch
of the handler re-wraps the inner `InvalidParams` — refuting both the
claimed error code and the claimed absence of prior I/O. -/
theorem createDocumentation_componentNoName_cex :
    (handleCreateDocumentation fs0 [] ⟨"/proj", .component, none⟩).ops =
      [FsOp.access "/proj", FsOp.mkdir "/proj"] ∧
    (handleCreateDocumentation fs0 [] ⟨"/proj", .component, none⟩).result =
      .error ⟨.InternalError,
        "Failed to create documentation: MCP error -32602: Component name is required for component documentation"⟩ ∧
    ErrorCode.InternalError ≠ ErrorCode.InvalidParams := by
  refine ⟨rfl, ?_, by decide⟩
  show Except.error (createDocumentationWrap (.mcp ⟨.InvalidParams,
    "Component name is required for component documentation"⟩)) = _
  simp [createDocumentationWrap, thrownText, mcpErrorText, errorCodeNum]

/-- Claim C3 (amended): whenever path validation does not itself fail,
create_documentation with `type = component` and no name performs the
`validatePath` filesystem I/O (an existence check, plus directory creation
when absent), writes no file, and fails with an `InternalError` wrapping
the missing-component-name message. -/
theorem createDocumentation_componentNoName (fs : Fs) (docs : DocStore) (path : String)
    (h : fs.present path = true → fs.isDir path = true) :
    handleCreateDocumentation fs docs ⟨path, .component, none⟩ =
      ⟨(validatePath fs path).1, docs,
       .error ⟨.InternalError,
         "Failed to create documentation: MCP error -32602: Component name is required for component documentation"⟩⟩ ∧
    (∀ p c, FsOp.writeFile p c ∉ (validatePath fs path).1) := by
  have hmsg : ("Failed to create documentation: MCP error -32602: Component name is required for component documentation" : String) =
      "Failed to create documentation: " ++ mcpErrorText ⟨.InvalidParams,
        "Component name is required for component documentation"⟩ := by
    simp [mcpErrorText, errorCodeNum]
  by_cases hp : fs.present path = true
  · have hd := h hp
    constructor
    · simp [handleCreateDocumentation, createDocumentationBody, validatePath, hp, hd, createDocumentationWrap,
        thrownText, hmsg]
    · intro p c
      simp [validatePath, hp, hd]
  · have hp2 : fs.present path = false := by
      cases hx : fs.present path
      · rfl
      · exact absurd hx hp
    constructor
    · simp [handleCreateDocumentation, createDocumentationBody, validatePath, hp2, createDocumentationWrap,
        thrownText, hmsg]
    · intro p c
      simp [validatePath, hp2]

/-- Witness for the amended C3 on a filesystem where the path is absent. -/
theorem createDocumentation_componentNoName_witness :
    handleCreateDocumentation fs0 [] ⟨"/docdir", .component, none⟩ =
      ⟨(validatePath fs0 "/docdir").1, [],
       .error ⟨.InternalError,
         "Failed to create documentation: MCP error -32602: Component name is required for component documentation"⟩⟩ ∧
    (∀ p c, FsOp.writeFile p c ∉ (validatePath fs0 "/docdir").1) :=
  createDocumentation_componentNoName fs0 [] "/docdir"
    (fun hp => absurd hp (by decide))

/-- Claim C10: create_project enables TypeScript for every `typescript`
argument value except the boolean `false` (`args.typescript !== false`),
and — shown for the `node` type with all subprocesses succeeding — exactly
the enabled runs perform the typed dev-dependency install, the `src`
directory creation and the `tsconfig.json` write. -/
theorem createProject_typescriptFlag (env : Env) (docs : DocStore)
    (nm pth : String) (tsArg : Option JSVal)
    (hexec : ∀ c d, ∃ s, env.exec c d = .ok s) :
    (tsEnabled tsArg = false ↔ tsArg = some (JSVal.bool false)) ∧
    (tsEnabled tsArg = true →
      handleCreateProject env docs ⟨nm, "node", pth, tsArg⟩ =
        ⟨[FsOp.mkdir (pathJoin pth nm),
          FsOp.exec "npm init -y" (pathJoin pth nm),
          FsOp.exec "npm install --save-dev typescript @types/node ts-node nodemon" (pathJoin pth nm),
          FsOp.mkdir (pathJoin (pathJoin pth nm) "src"),
          FsOp.writeFile (pathJoin (pathJoin pth nm) "tsconfig.json") (tsConfigContent "node"),
          FsOp.writeFile (pathJoin (pathJoin pth nm) "README.md") (generateReadme nm "node" true)],
         docs.set nm (generateReadme nm "node" true),
         .ok ("Project " ++ nm ++ " created successfully with TypeScript configuration")⟩) ∧
    (tsEnabled tsArg = false →
      handleCreateProject env docs ⟨nm, "node", pth, tsArg⟩ =
        ⟨[FsOp.mkdir (pathJoin pth nm),
          FsOp.exec "npm init -y" (pathJoin pth nm),
          FsOp.exec "npm install --save-dev nodemon" (pathJoin pth nm),
          FsOp.writeFile (pathJoin (pathJoin pth nm) "README.md") (generateReadme nm "node" false)],
         docs.set nm (generateReadme nm "node" false),
         .ok ("Project " ++ nm ++ " created successfully with JavaScript configuration")⟩) := by
  refine ⟨?_, ?_, ?_⟩
  · cases tsArg with
    | none => simp [tsEnabled, isExplicitFalse]
    | some v =>
      cases v with
      | bool b => cases b <;> simp [tsEnabled, isExplicitFalse]
      | num n => simp [tsEnabled, isExplicitFalse]
      | str s => simp [tsEnabled, isExplicitFalse]
      | null => simp [tsEnabled, isExplicitFalse]
      | obj fields => simp [tsEnabled, isExplicitFalse]
  · intro hts
    obtain ⟨s1, h1⟩ := hexec "npm init -y" (pathJoin pth nm)
    obtain ⟨s2, h2⟩ := hexec "npm install --save-dev typescript @types/node ts-node nodemon"
      (pathJoin pth nm)
    simp [handleCreateProject, getProjectTemplate, installStep, hts, joinSep, h1, h2,
      String.append_assoc]
  · intro hts
    obtain ⟨s1, h1⟩ := hexec "npm init -y" (pathJoin pth nm)
    obtain ⟨s2, h2⟩ := hexec "npm install --save-dev nodemon" (pathJoin pth nm)
    simp [handleCreateProject, getProjectTemplate, installStep, hts, joinSep, h1, h2,
      String.append_assoc]

/-- Witness for C10: with an absent `typescript` argument the TypeScript
steps run. -/
theorem createProject_typescriptFlag_witness :
    handleCreateProject env0 [] ⟨"app", "node", "/w", none⟩ =
      ⟨[FsOp.mkdir (pathJoin "/w" "app"),
        FsOp.exec "npm init -y" (pathJoin "/w" "app"),
        FsOp.exec "npm install --save-dev typescript @types/node ts-node nodemon" (pathJoin "/w" "app"),
        FsOp.mkdir (pathJoin (pathJoin "/w" "app") "src"),
        FsOp.writeFile (pathJoin (pathJoin "/w" "app") "tsconfig.json") (tsConfigContent "node"),
        FsOp.writeFile (pathJoin (pathJoin "/w" "app") "README.md") (generateReadme "app" "node" true)],
       DocStore.set [] "app" (generateReadme "app" "node" true),
       .ok ("Project " ++ "app" ++ " created successfully with TypeScript configuration")⟩ :=
  (createProject_typescriptFlag env0 [] "app" "/w" none
    (fun _ _ => ⟨"", rfl⟩)).2.1 rfl

/-- The whole-project documentation text is never empty (it starts with a
heading). -/
theorem generateProjectDocumentation_ne_empty (pj : PackageJson) :
    generateProjectDocumentation pj ≠ "" := by
  rw [generateProjectDocumentation]
  repeat' apply append_ne_empty_left
  decide

/-- The single-component documentation text is never empty. -/
theorem generateComponentDocText_ne_empty (n : String) (pm : Option String) :
    generateComponentDocText n pm ≠ "" := by
  rw [generateComponentDocText.eq_def]
  repeat' apply append_ne_empty_left
  decide

/-- Every content string a successful `create_documentation` body produces
is non-empty. -/
theorem createDocumentationBody_ne_empty (fs : Fs) (args : CreateDocumentationArgs)
    (content fileName : String)
    (h : createDocumentationBody fs args = .ok (content, fileName)) :
    content ≠ "" := by
  obtain ⟨path, ty, name?⟩ := args
  cases ty with
  | readme =>
    cases hpj : fs.packageJson path with
    | error msg => simp [createDocumentationBody, hpj] at h
    | ok pj =>
      simp [createDocumentationBody, hpj] at h
      rw [← h.1]
      exact generateProjectDocumentation_ne_empty pj
  | api =>
    simp [createDocumentationBody] at h
    rw [← h.1]
    decide
  | component =>
    cases name? with
    | none => simp [createDocumentationBody] at h
    | some n =>
      cases hrf : fs.readFile (pathJoin path (n ++ ".tsx")) with
      | error msg => simp [createDocumentationBody, hrf] at h
      | ok src =>
        simp [createDocumentationBody, hrf] at h
        rw [← h.1]
        exact generateComponentDocText_ne_empty n (fs.propsMatch src)

/-- Claim C2: reading a never-stored content id fails with the not-found
error, and every successful `create_documentation` call writes one
documentation file whose content is stored under the last path segment of
`path` and is returned exactly by an immediate read of that id. -/
theorem store_read_roundTrip :
    (∀ (docs : DocStore) (id : String), docs.get id = none →
      readResource docs id = .error ⟨.MethodNotFound, "Documentation not found for " ++ id⟩) ∧
    (∀ (fs : Fs) (docs : DocStore) (args : CreateDocumentationArgs) (msg : String),
      (handleCreateDocumentation fs docs args).result = .ok msg →
      ∃ content fileName,
        FsOp.writeFile (pathJoin args.path fileName) content ∈ (handleCreateDocumentation fs docs args).ops ∧
        (handleCreateDocumentation fs docs args).docs = docs.set (basename args.path) content ∧
        readResource (handleCreateDocumentation fs docs args).docs (basename args.path) = .ok content) := by
  constructor
  · intro docs id h
    simp [readResource, h, falsyOptStr]
  · intro fs docs args msg hok
    rcases hv : validatePath fs args.path with ⟨vops, vres⟩
    cases vres with
    | error e =>
      rw [handleCreateDocumentation, hv] at hok
      simp at hok
    | ok u =>
      cases hb : createDocumentationBody fs args with
      | error t =>
        rw [handleCreateDocumentation, hv, hb] at hok
        simp at hok
      | ok pair =>
        obtain ⟨content, fileName⟩ := pair
        have hne := createDocumentationBody_ne_empty fs args content fileName hb
        refine ⟨content, fileName, ?_, ?_, ?_⟩
        · rw [handleCreateDocumentation, hv, hb]
          simp
        · rw [handleCreateDocumentation, hv, hb]
        · rw [handleCreateDocumentation, hv, hb]
          exact readResource_set docs (basename args.path) content hne

/-- Witness for C2: reading an id from the empty store fails, and a
concrete readme-generation call round-trips its content through the store. -/
theorem store_read_roundTrip_witness :
    readResource [] "proj" = .error ⟨.MethodNotFound, "Documentation not found for " ++ "proj"⟩ ∧
    (∃ content fileName,
      FsOp.writeFile (pathJoin "/w/demo" fileName) content ∈
        (handleCreateDocumentation fs1 [] ⟨"/w/demo", .readme, none⟩).ops ∧
      (handleCreateDocumentation fs1 [] ⟨"/w/demo", .readme, none⟩).docs =
        DocStore.set [] (basename "/w/demo") content ∧
      readResource (handleCreateDocumentation fs1 [] ⟨"/w/demo", .readme, none⟩).docs
        (basename "/w/demo") = .ok content) :=
  ⟨store_read_roundTrip.1 [] "proj" rfl,
   store_read_roundTrip.2 fs1 [] ⟨"/w/demo", .readme, none⟩
     "Documentation created successfully at /w/demo/README.md" rfl⟩

example : pathJoin "/tmp" "app" = "/tmp/app" := by decide
example : basename "/a/b/" = "b" := rfl
example : jsSplit "typescript, docker" ',' = ["typescript", " docker"] := rfl
example : jsTrim " docker " = "docker" := rfl
example : strContains "hello world" "lo wo" = true := by decide
example : strContains "hello world" "low" = false := by decide
example : jsToLower "Number" = "number" := rfl
example : (DocStore.set [("a", "1")] "a" "2").get "a" = some "2" := rfl
